import Mathlib

/-!
# Verification of the GrowthCurvesApp core

Shallow embedding of the core of `src/dashboard_streamlite.py`:

* `gompertz` — the Gompertz growth function (line 37–38).
* `linspace` / `sample_curve` — the curve sampling done inside
  `plot_growth_curve` (`np.linspace(0, 800, 200)` and the vectorised
  `gompertz` call, lines 46–47).
* `collectObservations` — the observation-collection loop of the
  `weights_form` (lines 81–92): each of the five entry slots contributes a
  pair exactly when both its age and its weight are strictly positive.
* `applyFit` / `fitUpdateBlock` — the module-level fit-and-update block
  (lines 114–123): guarded by `submitted and not df_obs.empty`, the solver
  result (`scipy.optimize.curve_fit`, an external library modelled as an
  oracle returning `Except`) is either applied to the parameter table via
  the pandas masked assignment
  `params.loc[params["ID"] == selected_region, ["b0","b1","b2"]] = popt`
  or, on exception, reported as an error with the table untouched.

Machine floats are embedded as real numbers (the spec states all contracts
over real inputs); the integer age widget values are embedded as `ℕ` and
form weights as `ℚ`.
-/

open Filter

/-- The Gompertz growth function, from
`def gompertz(days, b0, b1, b2): return b0 * np.exp(-b1 * np.exp(-b2 * days))`. -/
noncomputable def gompertz (days b0 b1 b2 : ℝ) : ℝ :=
  b0 * Real.exp (-b1 * Real.exp (-b2 * days))

/-- `np.linspace start stop num` (with `endpoint=True`): `num` evenly spaced
points, the `i`-th being `start + (stop - start) * i / (num - 1)`. -/
noncomputable def linspace (start stop : ℝ) (num : ℕ) : List ℝ :=
  (List.range num).map fun i : ℕ =>
    start + (stop - start) * (i : ℝ) / ((num - 1 : ℕ) : ℝ)

/-- The curve sampling of `plot_growth_curve`:
`x = np.linspace(start, stop, count); y = gompertz(x, b0, b1, b2)`,
returned as the list of `(age, weight)` pairs. -/
noncomputable def sample_curve (b0 b1 b2 start stop : ℝ) (count : ℕ) :
    List (ℝ × ℝ) :=
  (linspace start stop count).map fun x => (x, gompertz x b0 b1 b2)

/-- The observation collection of the `weights_form` loop: an entry slot
`(age, weight)` is appended to `user_data` exactly when
`age > 0 and weight > 0`.  Widget values: `age` is an integer in `[0, 800]`,
`weight` a non-negative decimal (embedded as `ℚ`). -/
def collectObservations (entries : List (ℕ × ℚ)) : List (ℕ × ℚ) :=
  entries.filter fun e => 0 < e.1 && 0 < e.2

/-- A row of the parameter table: columns `ID`, `b0`, `b1`, `b2`. -/
structure ParamRecord where
  id : String
  b0 : ℝ
  b1 : ℝ
  b2 : ℝ

/-- Outcome of the `curve_fit` call: either the fitted triple `popt`, or the
exception message caught by the `except` branch. -/
inductive FitResult where
  | ok (b0 b1 b2 : ℝ)
  | err (msg : String)

/-- Observable outcome of the fit-and-update block.  The code only ever
produces `updated` (the `st.sidebar.success` banner plus the masked table
assignment), `fitFailed` (the `st.sidebar.error` banner) or `skipped` (the
`if submitted and not df_obs.empty` guard was false).  `recordNotFound` and
`invalidObservationSet` are the further conditions named by the
specification's error taxonomy; they are included so that claims about them
can be stated, and the theorems below show the translated code never
produces them. -/
inductive ApplyStatus where
  | updated (b0 b1 b2 : ℝ)
  | fitFailed (msg : String)
  | skipped
  | recordNotFound
  | invalidObservationSet

/-- The table-update half of the fit-and-update block (`apply` in the spec).
On a successful fit it performs
`params.loc[params["ID"] == selected_region, ["b0","b1","b2"]] = popt`:
every row whose `ID` equals `region` gets its three coefficients replaced
(the `ID` cell is not assigned); rows with a different `ID` are untouched,
and an empty selection is a silent no-op.  On a failed fit (`except`
branch) the table is left as it was and the error message is reported. -/
def applyFit (table : List ParamRecord) (region : String) (fr : FitResult) :
    List ParamRecord × ApplyStatus :=
  match fr with
  | .ok b0 b1 b2 =>
      (table.map fun r =>
        if r.id = region then { r with b0 := b0, b1 := b1, b2 := b2 } else r,
       .updated b0 b1 b2)
  | .err msg => (table, .fitFailed msg)

/-- Converts the solver oracle's `Except` outcome (success value of
`curve_fit`, or the exception it raised) into a `FitResult`. -/
def toFitResult : Except String (ℝ × ℝ × ℝ) → FitResult
  | .ok (b0, b1, b2) => .ok b0 b1 b2
  | .error e => .err e

/-- The whole module-level fit-and-update block, lines 114–123:
`if submitted and not df_obs.empty:` then `curve_fit` inside `try/except`
followed by the table update.  `solve` is the external
`scipy.optimize.curve_fit` oracle; a raised exception is its `.error`
outcome.  When the guard is false the solver is not invoked and nothing
happens. -/
def fitUpdateBlock (submitted : Bool) (obs : List (ℕ × ℚ))
    (solve : List (ℕ × ℚ) → Except String (ℝ × ℝ × ℝ))
    (table : List ParamRecord) (region : String) :
    List ParamRecord × ApplyStatus :=
  if submitted && !obs.isEmpty then
    applyFit table region (toFitResult (solve obs))
  else
    (table, .skipped)

/-- A concrete one-row parameter table used by counterexamples and
witnesses. -/
noncomputable def tableA : List ParamRecord := [⟨"RegionA", 400, 3, 1 / 100⟩]

/-- A concrete two-row parameter table used by witnesses. -/
noncomputable def tableAB : List ParamRecord :=
  [⟨"RegionA", 400, 3, 1 / 100⟩, ⟨"RegionB", 500, 2, 2 / 100⟩]

/-- C1: for every real `age, b0, b1, b2`, `gompertz` returns exactly
`b0 * exp(-b1 * exp(-b2 * age))`; it is a total function on the reals (a
Lean `def` on `ℝ`), performs no validation and has no error outcome. -/
theorem gompertz_formula (age b0 b1 b2 : ℝ) :
    gompertz age b0 b1 b2 = b0 * Real.exp (-b1 * Real.exp (-b2 * age)) :=
  rfl

/-- C2, counterexample: applying a successful fit to a table in which the
identifier does not occur does NOT signal a record-not-found condition —
the block reports success (the masked pandas assignment is a silent
no-op). -/
theorem applyFit_missing_id_no_error :
    ¬ (applyFit tableA "RegionB" (.ok 1 2 3)).2 = ApplyStatus.recordNotFound := by
  simp [applyFit]

/-- C2, amended: if the identifier occurs in no row of the table, a
successful fit leaves the table unchanged, but the outcome is the success
status (carrying the fitted triple), not a record-not-found error. -/
theorem applyFit_missing_id_unchanged (table : List ParamRecord)
    (region : String) (b0 b1 b2 : ℝ)
    (hmiss : ∀ r ∈ table, r.id ≠ region) :
    applyFit table region (.ok b0 b1 b2) = (table, .updated b0 b1 b2) := by
  unfold applyFit
  refine Prod.ext ?_ rfl
  simp only
  rw [List.map_congr_left, List.map_id]
  intro r hr
  simp [hmiss r hr]

/-- C2, witness for the amended theorem at a concrete table. -/
theorem applyFit_missing_id_unchanged_witness :
    applyFit tableA "RegionB" (.ok 1 2 3) = (tableA, .updated 1 2 3) :=
  applyFit_missing_id_unchanged tableA "RegionB" 1 2 3
    (by intro r hr; simp [tableA] at hr; simp [hr])

/-- C3, counterexample: running the fit block with an empty observation set
does not produce an `InvalidObservationSet` error FitResult — the guard
`submitted and not df_obs.empty` simply skips the whole block. -/
theorem fitBlock_empty_no_invalid_error :
    ¬ (fitUpdateBlock true [] (fun _ => .error "solver")
        tableA "RegionA").2 = ApplyStatus.invalidObservationSet := by
  simp [fitUpdateBlock]

/-- C3, amended: with an empty observation set the fit block is skipped
entirely for every solver, table and region: the solver is never invoked
(the outcome does not depend on `solve`), the table is returned unchanged,
and no error — in particular no `InvalidObservationSet` — is produced. -/
theorem fitBlock_empty_skipped (submitted : Bool)
    (solve : List (ℕ × ℚ) → Except String (ℝ × ℝ × ℝ))
    (table : List ParamRecord) (region : String) :
    fitUpdateBlock submitted [] solve table region = (table, .skipped) := by
  cases submitted <;> simp [fitUpdateBlock]

/-- C4: for every table, region and error FitResult, the table is returned
completely unchanged — no row and no coefficient is modified on a failed
fit; the failure message is reported. -/
theorem applyFit_error_unchanged (table : List ParamRecord) (region : String)
    (msg : String) :
    applyFit table region (.err msg) = (table, .fitFailed msg) :=
  rfl

/-- C8: the fit block never aborts: it is a total function, and every
solver failure (the oracle's `.error` outcome, i.e. any exception raised by
`curve_fit`) on a non-empty observation set is caught by the `except`
branch and surfaced as an error status carrying the underlying solver
message, with the table unchanged — the caller is never crashed. -/
theorem fitBlock_solver_failure_caught (obs : List (ℕ × ℚ))
    (solve : List (ℕ × ℚ) → Except String (ℝ × ℝ × ℝ))
    (table : List ParamRecord) (region : String) (e : String)
    (hne : obs ≠ []) (herr : solve obs = .error e) :
    fitUpdateBlock true obs solve table region = (table, .fitFailed e) := by
  cases obs with
  | nil => exact absurd rfl hne
  | cons a l => simp [fitUpdateBlock, herr, toFitResult, applyFit]

/-- C8, witness: a concrete failing solver run is caught and reported as an
error carrying the solver's message, with the table unchanged. -/
theorem fitBlock_solver_failure_caught_witness :
    fitUpdateBlock true [(100, 452 / 10)] (fun _ => .error "singular Jacobian")
        tableA "RegionA" = (tableA, .fitFailed "singular Jacobian") :=
  fitBlock_solver_failure_caught [(100, 452 / 10)]
    (fun _ => .error "singular Jacobian") tableA "RegionA" "singular Jacobian"
    (by decide) rfl

/-- C5: on a successful fit, the masked assignment replaces the three
coefficients of every row whose `ID` matches (its identifier field coming
from the original row, hence untouched) and leaves every other row
untouched; under the table invariant that identifiers are unique, exactly
the matching row changes. -/
theorem applyFit_success_frame (table : List ParamRecord) (region : String)
    (b0 b1 b2 : ℝ)
    (_huniq : (table.map ParamRecord.id).Nodup)
    (_hmem : region ∈ table.map ParamRecord.id) :
    (applyFit table region (.ok b0 b1 b2)).1.length = table.length ∧
    (∀ (j : ℕ) (r : ParamRecord), table[j]? = some r → r.id = region →
      (applyFit table region (.ok b0 b1 b2)).1[j]? =
        some { r with b0 := b0, b1 := b1, b2 := b2 }) ∧
    (∀ (j : ℕ) (r : ParamRecord), table[j]? = some r → r.id ≠ region →
      (applyFit table region (.ok b0 b1 b2)).1[j]? = some r) := by
  refine ⟨by simp [applyFit], ?_, ?_⟩
  · intro j r hj hid
    simp [applyFit, List.getElem?_map, hj, hid]
  · intro j r hj hid
    simp [applyFit, List.getElem?_map, hj, hid]

/-- C5, witness: in a concrete two-row table the `RegionA` row is
overwritten and the `RegionB` row is untouched. -/
theorem applyFit_success_frame_witness :
    (applyFit tableAB "RegionA" (.ok 1 2 3)).1.length = tableAB.length ∧
    (applyFit tableAB "RegionA" (.ok 1 2 3)).1[0]? = some ⟨"RegionA", 1, 2, 3⟩ ∧
    (applyFit tableAB "RegionA" (.ok 1 2 3)).1[1]? =
      some ⟨"RegionB", 500, 2, 2 / 100⟩ := by
  have h := applyFit_success_frame tableAB "RegionA" 1 2 3
    (by simp [tableAB]) (by simp [tableAB])
  exact ⟨h.1, h.2.1 0 ⟨"RegionA", 400, 3, 1 / 100⟩ rfl rfl,
    h.2.2 1 ⟨"RegionB", 500, 2, 2 / 100⟩ rfl (by decide)⟩

/-- The sampled curve has exactly `count` points. -/
theorem sample_curve_length (b0 b1 b2 start stop : ℝ) (count : ℕ) :
    (sample_curve b0 b1 b2 start stop count).length = count := by
  unfold sample_curve linspace
  rw [List.length_map, List.length_map, List.length_range]

/-- The `i`-th sampled point, in closed form. -/
theorem sample_curve_getElem (b0 b1 b2 start stop : ℝ) (count i : ℕ)
    (hi : i < count) :
    (sample_curve b0 b1 b2 start stop count)[i]? =
      some (start + (stop - start) * i / ((count - 1 : ℕ) : ℝ),
        gompertz (start + (stop - start) * i / ((count - 1 : ℕ) : ℝ)) b0 b1 b2) := by
  unfold sample_curve linspace
  rw [List.getElem?_map, List.getElem?_map, List.getElem?_range hi]
  rfl

/-- C7: `sample_curve b0 b1 b2 0 800 200` has exactly 200 points, the first
age is 0, the last age is 800, consecutive ages all differ by the constant
step `800 / 199`, and every weight is `gompertz` at the point's age. -/
theorem sample_curve_spec (b0 b1 b2 : ℝ) :
    (sample_curve b0 b1 b2 0 800 200).length = 200 ∧
    (sample_curve b0 b1 b2 0 800 200)[0]? = some (0, gompertz 0 b0 b1 b2) ∧
    (sample_curve b0 b1 b2 0 800 200)[199]? =
      some (800, gompertz 800 b0 b1 b2) ∧
    (∀ i : ℕ, ∀ p q : ℝ × ℝ,
      (sample_curve b0 b1 b2 0 800 200)[i]? = some p →
      (sample_curve b0 b1 b2 0 800 200)[i + 1]? = some q →
      q.1 - p.1 = 800 / 199) ∧
    (∀ p ∈ sample_curve b0 b1 b2 0 800 200, p.2 = gompertz p.1 b0 b1 b2) := by
  refine ⟨sample_curve_length b0 b1 b2 0 800 200, ?_, ?_, ?_, ?_⟩
  · rw [sample_curve_getElem b0 b1 b2 0 800 200 0 (by norm_num)]
    norm_num
  · rw [sample_curve_getElem b0 b1 b2 0 800 200 199 (by norm_num)]
    norm_num
  · intro i p q hp hq
    have hi1 : i + 1 < 200 := by
      have hlen := (List.getElem?_eq_some.mp hq).1
      rwa [sample_curve_length] at hlen
    have hi : i < 200 := Nat.lt_of_succ_lt hi1
    rw [sample_curve_getElem b0 b1 b2 0 800 200 i hi] at hp
    rw [sample_curve_getElem b0 b1 b2 0 800 200 (i + 1) hi1] at hq
    injection hp with hp
    injection hq with hq
    subst hp
    subst hq
    dsimp only
    have h199 : ((200 - 1 : ℕ) : ℝ) = 199 := by norm_num
    rw [h199]
    push_cast
    ring
  · intro p hp
    unfold sample_curve at hp
    rw [List.mem_map] at hp
    obtain ⟨x, _, rfl⟩ := hp
    rfl

/-- C7, witness: the sampled curve at the default `RegionA` parameters. -/
theorem sample_curve_spec_witness :
    (sample_curve 400 3 (1 / 100) 0 800 200).length = 200 ∧
    (sample_curve 400 3 (1 / 100) 0 800 200)[0]? =
      some (0, gompertz 0 400 3 (1 / 100)) :=
  ⟨(sample_curve_spec 400 3 (1 / 100)).1, (sample_curve_spec 400 3 (1 / 100)).2.1⟩

/-- C10: given the widget constraints (at most 5 entry slots, each age an
integer at most 800, weights non-negative), every collected observation has
strictly positive age and weight, age at most 800, there are at most 5
observations, and any entry with age 0 or weight 0 is dropped. -/
theorem collectObservations_spec (entries : List (ℕ × ℚ))
    (hlen : entries.length ≤ 5) (hage : ∀ e ∈ entries, e.1 ≤ 800) :
    (collectObservations entries).length ≤ 5 ∧
    (∀ e ∈ collectObservations entries, 0 < e.1 ∧ e.1 ≤ 800 ∧ 0 < e.2) ∧
    (∀ e ∈ entries, (e.1 = 0 ∨ e.2 = 0) → e ∉ collectObservations entries) := by
  refine ⟨le_trans (List.length_filter_le _ _) hlen, ?_, ?_⟩
  · intro e he
    have hmem := List.mem_of_mem_filter he
    simp [collectObservations, List.mem_filter] at he
    exact ⟨he.2.1, hage e hmem, he.2.2⟩
  · intro e _ hzero hmem
    simp [collectObservations, List.mem_filter] at hmem
    rcases hzero with h0 | h0
    · exact absurd h0 (Nat.pos_iff_ne_zero.mp hmem.2.1)
    · rw [h0] at hmem
      exact lt_irrefl 0 hmem.2.2

/-- C10, witness: a concrete form state; the entry with age 0 is dropped. -/
theorem collectObservations_spec_witness :
    (collectObservations [(100, 452 / 10), (0, 5), (300, 0)]).length ≤ 5 ∧
    ((0 : ℕ), (5 : ℚ)) ∉ collectObservations [(100, 452 / 10), (0, 5), (300, 0)] := by
  have h := collectObservations_spec [(100, 452 / 10), (0, 5), (300, 0)]
    (by decide) (by decide)
  exact ⟨h.1, h.2.2 (0, 5) (by decide) (Or.inl rfl)⟩

/-- C6: for `b0, b1, b2 > 0` the Gompertz curve is monotonically
non-decreasing in age on `[0, ∞)`, strictly below `b0` everywhere, and
tends to `b0` as age tends to infinity. -/
theorem gompertz_monotone_bounded (b0 b1 b2 : ℝ)
    (hb0 : 0 < b0) (hb1 : 0 < b1) (hb2 : 0 < b2) :
    (∀ a1 a2 : ℝ, 0 ≤ a1 → a1 ≤ a2 →
      gompertz a1 b0 b1 b2 ≤ gompertz a2 b0 b1 b2) ∧
    (∀ a : ℝ, 0 ≤ a → gompertz a b0 b1 b2 < b0) ∧
    Tendsto (fun a => gompertz a b0 b1 b2) atTop (nhds b0) := by
  refine ⟨?_, ?_, ?_⟩
  · intro a1 a2 _ h12
    unfold gompertz
    have h1 : Real.exp (-b2 * a2) ≤ Real.exp (-b2 * a1) :=
      Real.exp_le_exp.mpr (by nlinarith)
    have h2 : -b1 * Real.exp (-b2 * a1) ≤ -b1 * Real.exp (-b2 * a2) := by
      nlinarith
    exact mul_le_mul_of_nonneg_left (Real.exp_le_exp.mpr h2) hb0.le
  · intro a _
    unfold gompertz
    have hpos := Real.exp_pos (-b2 * a)
    have h1 : -b1 * Real.exp (-b2 * a) < 0 := by nlinarith
    have h2 : Real.exp (-b1 * Real.exp (-b2 * a)) < 1 :=
      Real.exp_lt_one_iff.mpr h1
    calc b0 * Real.exp (-b1 * Real.exp (-b2 * a)) < b0 * 1 := by nlinarith
    _ = b0 := mul_one b0
  · have h1 : Tendsto (fun a : ℝ => -b2 * a) atTop atBot :=
      Tendsto.const_mul_atTop_of_neg (by linarith) tendsto_id
    have h2 : Tendsto (fun a : ℝ => Real.exp (-b2 * a)) atTop (nhds 0) :=
      Real.tendsto_exp_atBot.comp h1
    have h3 : Tendsto (fun a : ℝ => -b1 * Real.exp (-b2 * a)) atTop (nhds 0) := by
      have hc := h2.const_mul (-b1)
      simpa using hc
    have h4 : Tendsto (fun a : ℝ => Real.exp (-b1 * Real.exp (-b2 * a)))
        atTop (nhds 1) := by
      have hc := (Real.continuous_exp.tendsto 0).comp h3
      simpa using hc
    have h5 := h4.const_mul b0
    simpa [gompertz] using h5

/-- C6, witness: at the default parameters the curve at age 0 is strictly
below the asymptote. -/
theorem gompertz_monotone_bounded_witness :
    gompertz 0 400 3 (1 / 100) < 400 :=
  (gompertz_monotone_bounded 400 3 (1 / 100) (by norm_num) (by norm_num)
    (by norm_num)).2.1 0 le_rfl
